import Mathlib

/-
  Verification development for the tap-tap monitoring engine
  (src/services/latency-tester.ts, src/services/grafana.ts, src/index.ts).

  The TypeScript code is shallowly embedded: every probe attempt is an
  interaction with the network environment, so performTest is modelled as a
  function of an explicit environment (one AttemptOutcome per attempt index).
  Wall-clock time is threaded as a natural-number millisecond counter: each
  attempt consumes its duration, each inter-retry sleep consumes 1000 ms,
  matching performance.now based measurement in the source.
-/

namespace TapTap

/-- Mirrors the LatencyTest interface of src/types/index.ts. The timestamp is
milliseconds on the same clock that starts at 0 when performTest begins. -/
structure LatencyTest where
  endpoint : String
  timestamp : Nat
  latency : Nat
  status : Nat
  success : Bool
deriving DecidableEq, Repr

/-- Mirrors MonitoringOptions of src/services/latency-tester.ts. The
validateResponse function field is represented by hasValidator; the boolean
the validator returns on a given attempt (or the fact that it, or the JSON
decoding of the body, throws) lives in the attempt environment below, since
it depends on the response. -/
structure MonitoringOptions where
  interval : Option Nat := none
  timeout : Option Nat := none
  retryCount : Option Nat := none
  method : String := "GET"
  headers : List (String × String) := []
  body : Option String := none
  expectedStatusCode : Option Nat := none
  hasValidator : Bool := false
deriving DecidableEq, Repr

/-- Behaviour of the response-body decoding plus validator call on one
attempt: either response.clone().json() or validateResponse throws, or the
validator returns a boolean. -/
inductive ValidatorBehavior where
  | throws
  | returns (b : Bool)
deriving DecidableEq, Repr

/-- Environment outcome of one fetch attempt: fetch rejects (network error,
or the AbortController timeout fired), or a response arrives after dur
milliseconds with the given status, ok flag, and validator behaviour. -/
inductive AttemptOutcome where
  | throws (dur : Nat)
  | response (dur : Nat) (status : Nat) (ok : Bool) (validator : ValidatorBehavior)
deriving DecidableEq, Repr

/-- What one iteration of the while loop in performTest does with the
attempt: the try block either returns a LatencyTest-shaped record with the
computed success flag, or throws into the catch block. -/
inductive AttemptEval where
  | threw (dur : Nat)
  | returned (dur : Nat) (status : Nat) (success : Bool)
deriving DecidableEq, Repr

/-- One iteration of the try block of performTest (latency-tester.ts lines
70-99): a rejected fetch throws; a completed response computes
success = (expectedStatusCode ? status === expected : response.ok) &&
(!validateResponse || validateResponse(json)). The conjunction
short-circuits: on a status check failure the validator is never invoked and
the record is returned with success = false. A throwing validator or JSON
decode escapes into the catch block. -/
def statusCheck (opts : MonitoringOptions) (status : Nat) (ok : Bool) : Bool :=
  match opts.expectedStatusCode with
  | some e => status == e
  | none => ok

def evalAttempt (opts : MonitoringOptions) : AttemptOutcome → AttemptEval
  | .throws d => .threw d
  | .response d status ok vb =>
      if !(statusCheck opts status ok) then .returned d status false
      else if !opts.hasValidator then .returned d status true
      else
        match vb with
        | .throws => .threw d
        | .returns b => .returned d status b

/-- The while loop of performTest (latency-tester.ts lines 69-115).
currentTry and remaining satisfy currentTry + remaining = maxTries on entry;
now is the elapsed time since startTime. On a completed response the loop
returns immediately; in the catch block, when the incremented currentTry
reaches maxTries the failure record (status 0) is returned, otherwise the
loop sleeps 1000 ms and retries. remaining = 0 on entry corresponds to the
trailing unreachable throw of performTest. The second component of the ok
value counts the attempts (fetch calls) that were made. -/
def performTestGo (url : String) (opts : MonitoringOptions)
    (env : Nat → AttemptOutcome) :
    Nat → Nat → Nat → Except String (LatencyTest × Nat)
  | _, 0, _ => .error "Unexpected end of performTest"
  | currentTry, remaining + 1, now =>
      match evalAttempt opts (env currentTry) with
      | .returned d status success =>
          .ok ({ endpoint := url, timestamp := now + d, latency := now + d,
                 status := status, success := success }, currentTry + 1)
      | .threw d =>
          if remaining = 0 then
            .ok ({ endpoint := url, timestamp := now + d, latency := now + d,
                   status := 0, success := false }, currentTry + 1)
          else
            performTestGo url opts env (currentTry + 1) remaining (now + d + 1000)

/-- performTest of latency-tester.ts lines 61-119: startTime = 0,
currentTry = 0, maxTries = (options.retryCount ?? 0) + 1. -/
def performTest (url : String) (opts : MonitoringOptions)
    (env : Nat → AttemptOutcome) : Except String (LatencyTest × Nat) :=
  performTestGo url opts env 0 ((opts.retryCount.getD 0) + 1) 0

/-- One row of the latency_tests table (src/db/database.ts): storeResult
writes timestamp = result.timestamp.getTime() (milliseconds, INTEGER),
endpoint, latency, status, success as 1/0. -/
structure StoredTest where
  timestamp : Int
  endpoint : String
  latency : Nat
  status : Nat
  success : Bool
deriving DecidableEq, Repr

/-- storeResult of latency-tester.ts lines 121-134: INSERT OR REPLACE with
the UNIQUE(timestamp, endpoint) key of the latency_tests table, so a row
with the same (timestamp, endpoint) pair is overwritten. -/
def insertResult (db : List StoredTest) (r : StoredTest) : List StoredTest :=
  (db.filter (fun t => !(t.timestamp == r.timestamp && t.endpoint == r.endpoint))) ++ [r]

def toStored (r : LatencyTest) : StoredTest :=
  { timestamp := (r.timestamp : Int), endpoint := r.endpoint,
    latency := r.latency, status := r.status, success := r.success }

/-- Mirrors the AlertThreshold interface of src/types/index.ts. Numeric
fields are modelled as rationals (JavaScript numbers; the claims under
study do not depend on floating-point rounding). -/
structure AlertThreshold where
  endpoint : String
  maxLatency : Option ℚ := none
  minSuccessRate : Option ℚ := none
  windowSize : Int
  notificationUrl : Option String := none
deriving DecidableEq, Repr

/-- SQL AVG over the selected rows: NULL (none) when no row matches,
otherwise the arithmetic mean. No division is performed on an empty
selection. -/
def sqlAvg (xs : List ℚ) : Option ℚ :=
  if xs.isEmpty then none else some (xs.sum / (xs.length : ℚ))

/-- JavaScript strict greater-than where the left operand may be the SQL
NULL delivered by the driver: null coerces to the number 0. -/
def jsNullGt (a : Option ℚ) (b : ℚ) : Bool :=
  match a with
  | none => decide ((0 : ℚ) > b)
  | some x => decide (x > b)

/-- JavaScript strict less-than where the left operand may be the SQL NULL
delivered by the driver: null coerces to the number 0. -/
def jsNullLt (a : Option ℚ) (b : ℚ) : Bool :=
  match a with
  | none => decide ((0 : ℚ) < b)
  | some x => decide (x < b)

/-- JavaScript truthiness of an optional number field: undefined and 0 are
falsy (rationals have no NaN, which is irrelevant to the claims). -/
def jsTruthyNum (a : Option ℚ) : Bool :=
  match a with
  | none => false
  | some x => x != 0

/-- JavaScript truthiness of an optional string field: undefined and the
empty string are falsy. -/
def jsTruthyStr (a : Option String) : Bool :=
  match a with
  | none => false
  | some s => s != ""

/-- The rows the window query of checkAlertThresholds selects:
WHERE endpoint = ? AND timestamp >= windowStart. -/
def windowRows (db : List StoredTest) (endpoint : String) (windowStart : Int) :
    List StoredTest :=
  db.filter (fun t => t.endpoint == endpoint && windowStart ≤ t.timestamp)

def windowStartOf (threshold : AlertThreshold) (result : LatencyTest) : Int :=
  (result.timestamp : Int) - threshold.windowSize

/-- AVG(latency) of the window query. -/
def windowAvgLatency (db : List StoredTest) (endpoint : String)
    (windowStart : Int) : Option ℚ :=
  sqlAvg ((windowRows db endpoint windowStart).map (fun t => (t.latency : ℚ)))

/-- AVG(CASE WHEN success = 1 THEN 1.0 ELSE 0.0 END) of the window query. -/
def windowSuccessRate (db : List StoredTest) (endpoint : String)
    (windowStart : Int) : Option ℚ :=
  sqlAvg ((windowRows db endpoint windowStart).map
    (fun t => if t.success then (1 : ℚ) else 0))

/-- latency-tester.ts lines 159-168: threshold.maxLatency &&
recentTests.avg_latency > threshold.maxLatency. The first conjunct is
JavaScript truthiness of the field, the second the comparison against the
possibly-NULL aggregate. -/
def latencyBreach (threshold : AlertThreshold) (avgLatency : Option ℚ) : Bool :=
  match threshold.maxLatency with
  | none => false
  | some m => m != 0 && jsNullGt avgLatency m

/-- latency-tester.ts lines 170-179: threshold.minSuccessRate &&
recentTests.success_rate < threshold.minSuccessRate. -/
def successBreach (threshold : AlertThreshold) (successRate : Option ℚ) : Bool :=
  match threshold.minSuccessRate with
  | none => false
  | some r => r != 0 && jsNullLt successRate r

/-- The two human-readable messages pushed onto the alerts array, in
source order. -/
inductive AlertMsg where
  | highLatency
  | lowSuccessRate
deriving DecidableEq, Repr

def alertsFor (threshold : AlertThreshold) (avgLatency successRate : Option ℚ) :
    List AlertMsg :=
  (if latencyBreach threshold avgLatency then [AlertMsg.highLatency] else []) ++
  (if successBreach threshold successRate then [AlertMsg.lowSuccessRate] else [])

/-- Outcome of checkAlertThresholds: either the early return because no
threshold is registered for the endpoint, or the window aggregates, the
alerts array, and whether sendAlert was invoked (alerts nonempty and
notificationUrl truthy). -/
inductive AlertOutcome where
  | noThreshold
  | evaluated (avgLatency successRate : Option ℚ) (alerts : List AlertMsg)
      (notificationSent : Bool)
deriving DecidableEq, Repr

def firedAlerts : AlertOutcome → List AlertMsg
  | .noThreshold => []
  | .evaluated _ _ alerts _ => alerts

def sentNotification : AlertOutcome → Bool
  | .noThreshold => false
  | .evaluated _ _ _ sent => sent

/-- checkAlertThresholds of latency-tester.ts lines 136-184. The threshold
table is the in-memory Map endpoint -> AlertThreshold; the window query runs
over the latency_tests rows. sendAlert itself catches every delivery error,
so the evaluation only records whether it was invoked. -/
def checkAlertThresholds (thresholds : String → Option AlertThreshold)
    (db : List StoredTest) (result : LatencyTest) : AlertOutcome :=
  match thresholds result.endpoint with
  | none => .noThreshold
  | some threshold =>
      .evaluated
        (windowAvgLatency db result.endpoint (windowStartOf threshold result))
        (windowSuccessRate db result.endpoint (windowStartOf threshold result))
        (alertsFor threshold
          (windowAvgLatency db result.endpoint (windowStartOf threshold result))
          (windowSuccessRate db result.endpoint (windowStartOf threshold result)))
        (decide (alertsFor threshold
            (windowAvgLatency db result.endpoint (windowStartOf threshold result))
            (windowSuccessRate db result.endpoint (windowStartOf threshold result)) ≠ []) &&
          jsTruthyStr threshold.notificationUrl)

/-- Environment outcome of the Grafana push fetch in grafana.ts
pushMetrics: the fetch itself rejects, or a response arrives with the given
ok flag. -/
inductive PushOutcome where
  | fetchRejects
  | respond (ok : Bool)
deriving DecidableEq, Repr

/-- pushMetrics of grafana.ts lines 65-100: a non-ok response raises, and
the catch block logs the error and then rethrows it, so every delivery
failure propagates to the caller as a rejection. -/
def pushMetrics : PushOutcome → Except String Unit
  | .fetchRejects => .error "Error pushing metrics to Grafana"
  | .respond true => .ok ()
  | .respond false => .error "Failed to push metrics"

deriving instance DecidableEq for Except

/-- Result of one probe cycle: the settled value of the testEndpoint
promise, the latency_tests table after the cycle, and the alert evaluation
if checkAlertThresholds ran (none when an earlier await rejected). -/
structure CycleResult where
  outcome : Except String LatencyTest
  db : List StoredTest
  alertEval : Option AlertOutcome
deriving DecidableEq, Repr

/-- testEndpoint of latency-tester.ts lines 206-215: performTest, then
storeResult, then grafana.pushMetrics, then checkAlertThresholds, each
awaited with no try/catch, so a rejection at any stage aborts the rest of
the cycle and rejects the testEndpoint promise. -/
def testEndpoint (thresholds : String → Option AlertThreshold)
    (db : List StoredTest) (url : String) (opts : MonitoringOptions)
    (env : Nat → AttemptOutcome) (push : PushOutcome) : CycleResult :=
  match performTest url opts env with
  | .error e => { outcome := .error e, db := db, alertEval := none }
  | .ok (result, _) =>
      match pushMetrics push with
      | .error e =>
          { outcome := .error e, db := insertResult db (toStored result),
            alertEval := none }
      | .ok _ =>
          { outcome := .ok result, db := insertResult db (toStored result),
            alertEval := some (checkAlertThresholds thresholds
              (insertResult db (toStored result)) result) }

/-- Scheduler state: the activeTests Map of latency-tester.ts as an
association list url -> timer id (Map keys are unique), the set of timer
ids on which clearInterval was called, and the id the next setInterval call
allocates. -/
structure SchedulerState where
  activeTests : List (String × Nat)
  cancelledTimers : List Nat
  nextTimerId : Nat
deriving DecidableEq, Repr

def lookupTimer (s : SchedulerState) (url : String) : Option Nat :=
  (s.activeTests.find? (fun p => p.1 == url)).map Prod.snd

/-- Map.set semantics: replace the binding if the key is present, append
otherwise. -/
def mapSet (m : List (String × Nat)) (k : String) (v : Nat) :
    List (String × Nat) :=
  if m.any (fun p => p.1 == k) then
    m.map (fun p => if p.1 == k then (k, v) else p)
  else m ++ [(k, v)]

/-- Map.delete semantics. -/
def mapDelete (m : List (String × Nat)) (k : String) : List (String × Nat) :=
  m.filter (fun p => !(p.1 == k))

/-- The options parameter of startMonitoring: number | MonitoringOptions;
omitting it passes config.DEFAULT_INTERVAL, a number. -/
inductive StartOptions where
  | num (n : Nat)
  | opts (o : MonitoringOptions)
deriving Repr

/-- latency-tester.ts lines 254-255: a plain number becomes
interval-only options. -/
def normalizeOptions : StartOptions → MonitoringOptions
  | .num n => { interval := some n }
  | .opts o => o

/-- Observable steps of a successful startMonitoring call, in execution
order: setInterval arms the repeating timer, the session is stored in
activeTests, and the initial testEndpoint cycle is started with its promise
returned to the caller. -/
inductive StartEvent where
  | armTimer (timerId : Nat) (interval : Nat)
  | registerSession (url : String) (timerId : Nat)
  | runInitialCycle (url : String)
deriving DecidableEq, Repr

/-- startMonitoring of latency-tester.ts lines 246-265. The duplicate check
throws before any mutation, so on error the returned state is the input
state unchanged. On success: setInterval creates the timer (armTimer), the
session is registered, and the initial testEndpoint call is started last,
its promise being the return value. -/
def startMonitoring (defaultInterval : Nat) (s : SchedulerState) (url : String)
    (options : StartOptions) : Except String (List StartEvent × Nat) × SchedulerState :=
  if (lookupTimer s url).isSome then
    (.error ("Already monitoring " ++ url), s)
  else
    (.ok ([StartEvent.armTimer s.nextTimerId
             ((normalizeOptions options).interval.getD defaultInterval),
           StartEvent.registerSession url s.nextTimerId,
           StartEvent.runInitialCycle url],
          (normalizeOptions options).interval.getD defaultInterval),
     { activeTests := mapSet s.activeTests url s.nextTimerId,
       cancelledTimers := s.cancelledTimers,
       nextTimerId := s.nextTimerId + 1 })

/-- stopMonitoring of latency-tester.ts lines 267-273: look the timer up;
when present, clearInterval it and delete the session entry; otherwise do
nothing. The function never throws. -/
def stopMonitoring (s : SchedulerState) (url : String) : SchedulerState :=
  match lookupTimer s url with
  | none => s
  | some t =>
      { activeTests := mapDelete s.activeTests url,
        cancelledTimers := t :: s.cancelledTimers,
        nextTimerId := s.nextTimerId }

/-- The setInterval callback of startMonitoring (line 259-261):
this.testEndpoint(url, options).catch(console.error). The rejection of a
cycle is caught and logged; the callback never touches activeTests, so the
timer stays armed and future cycles keep firing. -/
def scheduledTick (s : SchedulerState) (thresholds : String → Option AlertThreshold)
    (db : List StoredTest) (url : String) (opts : MonitoringOptions)
    (env : Nat → AttemptOutcome) (push : PushOutcome) :
    SchedulerState × List StoredTest :=
  (s, (testEndpoint thresholds db url opts env push).db)

/-- Concrete fixtures for the closed evaluations below. thC3 is a threshold
with only minSuccessRate and a webhook set. -/
def thC3 : AlertThreshold :=
  { endpoint := "https://e", minSuccessRate := some (9 / 10),
    windowSize := 2000, notificationUrl := some "https://hook" }

def resC3 : LatencyTest :=
  { endpoint := "https://e", timestamp := 5000, latency := 10,
    status := 200, success := true }

/-- Fixture: a threshold with both fields set to positive values and a
webhook. -/
def thPos : AlertThreshold :=
  { endpoint := "https://e", maxLatency := some 100,
    minSuccessRate := some (1 / 2), windowSize := 1000,
    notificationUrl := some "https://hook" }

def resSmall : LatencyTest :=
  { endpoint := "https://e", timestamp := 50, latency := 1,
    status := 200, success := true }

/-- Fixture: a threshold with only maxLatency configured, whose 2000 ms
window covers the stored row rowOk. -/
def thLatOnly : AlertThreshold :=
  { endpoint := "https://e", maxLatency := some 100,
    windowSize := 2000 }

/-- Fixture: a threshold with only minSuccessRate configured (the shape of
the spec worked example), whose 2000 ms window covers the stored row
rowOk. -/
def thRateOnly : AlertThreshold :=
  { endpoint := "https://e", minSuccessRate := some (9 / 10),
    windowSize := 2000 }

def rowOk : StoredTest :=
  { timestamp := 500, endpoint := "https://e", latency := 300,
    status := 200, success := true }

def resC8 : LatencyTest :=
  { endpoint := "https://e", timestamp := 1000, latency := 300,
    status := 200, success := true }

/-- Fixture: a threshold with both numeric fields stored as 0. -/
def thZero : AlertThreshold :=
  { endpoint := "https://e", maxLatency := some 0, minSuccessRate := some 0,
    windowSize := 1000, notificationUrl := some "https://hook" }

def rowBad : StoredTest :=
  { timestamp := 0, endpoint := "https://e", latency := 99999,
    status := 0, success := false }

def resC10 : LatencyTest :=
  { endpoint := "https://e", timestamp := 100, latency := 99999,
    status := 0, success := false }

/-- Helper: on an environment where every attempt throws, the loop runs
through all remaining attempts, accumulating every attempt duration and a
1000 ms delay between consecutive attempts, and ends in the status-0 failure
record. -/
lemma performTestGo_allThrows (url : String) (opts : MonitoringOptions)
    (d : Nat → Nat) :
    ∀ (rem c now : Nat),
      performTestGo url opts (fun i => .throws (d i)) c (rem + 1) now =
        .ok ({ endpoint := url,
               timestamp := now + (∑ i ∈ Finset.range (rem + 1), d (c + i)) + 1000 * rem,
               latency := now + (∑ i ∈ Finset.range (rem + 1), d (c + i)) + 1000 * rem,
               status := 0, success := false }, c + rem + 1) := by
  intro rem
  induction rem with
  | zero =>
      intro c now
      simp [performTestGo, evalAttempt]
  | succ k ih =>
      intro c now
      rw [performTestGo]
      simp only [evalAttempt]
      rw [if_neg (Nat.succ_ne_zero k)]
      rw [ih (c + 1) (now + d c + 1000)]
      have hsum : ∑ i ∈ Finset.range (k + 1 + 1), d (c + i) =
          (∑ i ∈ Finset.range (k + 1), d (c + 1 + i)) + d c := by
        rw [Finset.sum_range_succ']
        congr 1
        exact Finset.sum_congr rfl (fun i _ => by congr 1; omega)
      rw [hsum]
      simp only [Except.ok.injEq, Prod.mk.injEq, LatencyTest.mk.injEq, and_true, true_and]
      omega

/-- Helper: when the validator returns false on a completed response, the
try block returns a record with success = false and the response status,
whether or not the status check passed (the conjunction makes success false
either way, and a false status check short-circuits past the validator). -/
lemma evalAttempt_validator_false (opts : MonitoringOptions)
    (hv : opts.hasValidator = true) (d status : Nat) (ok : Bool) :
    evalAttempt opts (.response d status ok (.returns false)) =
      .returned d status false := by
  cases hc : statusCheck opts status ok <;> simp [evalAttempt, hc, hv]

/-- Claim C4: for every non-negative retryCount n, a probe against a target
whose every attempt fails (every fetch rejects) makes exactly n + 1
attempts and returns a final result with success = false and status = 0;
the n = 0 instance is the retryCount = 0 single-attempt case. -/
theorem c4_always_failing_probe_makes_n_plus_one_attempts (url : String)
    (opts : MonitoringOptions) (n : Nat) (d : Nat → Nat)
    (hn : opts.retryCount = some n) :
    ∃ res : LatencyTest,
      performTest url opts (fun i => AttemptOutcome.throws (d i)) = .ok (res, n + 1) ∧
      res.success = false ∧ res.status = 0 := by
  refine ⟨{ endpoint := url,
            timestamp := (∑ i ∈ Finset.range (n + 1), d i) + 1000 * n,
            latency := (∑ i ∈ Finset.range (n + 1), d i) + 1000 * n,
            status := 0, success := false }, ?_, rfl, rfl⟩
  rw [performTest, hn]
  simpa using performTestGo_allThrows url opts d n 0 0

theorem c4_witness :
    ∃ res : LatencyTest,
      performTest "https://w.example" { retryCount := some 1 }
        (fun _ => AttemptOutcome.throws 7) = .ok (res, 1 + 1) ∧
      res.success = false ∧ res.status = 0 :=
  c4_always_failing_probe_makes_n_plus_one_attempts "https://w.example"
    { retryCount := some 1 } 1 (fun _ => 7) rfl

/-- Claim C7: on exhaustion of attempts the reported latency is the elapsed
time from the start of the first attempt to the final verdict: the sum of
all n + 1 attempt durations plus the n fixed 1000 ms inter-retry delays.
The final conjunct notes it dominates the last attempt duration plus the
delays, so it is never just the last attempt. -/
theorem c7_latency_spans_all_attempts_and_delays (url : String)
    (opts : MonitoringOptions) (n : Nat) (d : Nat → Nat)
    (hn : opts.retryCount = some n) :
    performTest url opts (fun i => AttemptOutcome.throws (d i)) =
      .ok ({ endpoint := url,
             timestamp := (∑ i ∈ Finset.range (n + 1), d i) + 1000 * n,
             latency := (∑ i ∈ Finset.range (n + 1), d i) + 1000 * n,
             status := 0, success := false }, n + 1) ∧
    d n + 1000 * n ≤ (∑ i ∈ Finset.range (n + 1), d i) + 1000 * n := by
  constructor
  · rw [performTest, hn]
    simpa using performTestGo_allThrows url opts d n 0 0
  · have hle : d n ≤ ∑ i ∈ Finset.range (n + 1), d i :=
      Finset.single_le_sum (fun i _ => Nat.zero_le (d i)) (Finset.self_mem_range_succ n)
    omega

theorem c7_witness :
    performTest "https://w7.example" { retryCount := some 2 }
      (fun _ => AttemptOutcome.throws 5) =
      .ok ({ endpoint := "https://w7.example",
             timestamp := (∑ _i ∈ Finset.range (2 + 1), 5) + 1000 * 2,
             latency := (∑ _i ∈ Finset.range (2 + 1), 5) + 1000 * 2,
             status := 0, success := false }, 2 + 1) ∧
    5 + 1000 * 2 ≤ (∑ _i ∈ Finset.range (2 + 1), 5) + 1000 * 2 :=
  c7_latency_spans_all_attempts_and_delays "https://w7.example"
    { retryCount := some 2 } 2 (fun _ => 5) rfl

/-- Claim C1 as stated is false: with a validator that always returns false
on a completed response and retryCount = 2, performTest does not make
2 + 1 = 3 attempts: it returns after the first completed attempt, because a
completed response always returns from the try block with the computed
success flag and only a thrown attempt reaches the retry logic. -/
theorem c1_counterexample :
    performTest "https://api.example.com"
      { retryCount := some 2, hasValidator := true }
      (fun _ => AttemptOutcome.response 5 200 true (ValidatorBehavior.returns false)) =
      .ok ({ endpoint := "https://api.example.com", timestamp := 5, latency := 5,
             status := 200, success := false }, 1) ∧
    (1 : Nat) ≠ 2 + 1 := by
  exact ⟨by decide, by decide⟩

/-- Claim C1 amended: when the validator is supplied and returns false on
the completed response of the first attempt, every attempt is treated as
failed in the sense that the returned result has success = false, but
retries are not exhausted: performTest returns after exactly one attempt,
with the status of that response, regardless of retryCount. Retries occur
only for attempts that throw. -/
theorem c1_amended_validator_false_single_attempt (url : String)
    (opts : MonitoringOptions) (env : Nat → AttemptOutcome)
    (dur status : Nat) (ok : Bool)
    (hv : opts.hasValidator = true)
    (h0 : env 0 = AttemptOutcome.response dur status ok (ValidatorBehavior.returns false)) :
    performTest url opts env =
      .ok ({ endpoint := url, timestamp := dur, latency := dur,
             status := status, success := false }, 1) := by
  simp only [performTest, performTestGo, h0,
    evalAttempt_validator_false opts hv dur status ok, Nat.zero_add]

theorem c1_amended_witness :
    performTest "https://wa.example" { retryCount := some 2, hasValidator := true }
      (fun _ => AttemptOutcome.response 4 200 true (ValidatorBehavior.returns false)) =
      .ok ({ endpoint := "https://wa.example", timestamp := 4, latency := 4,
             status := 200, success := false }, 1) :=
  c1_amended_validator_false_single_attempt "https://wa.example"
    { retryCount := some 2, hasValidator := true }
    (fun _ => AttemptOutcome.response 4 200 true (ValidatorBehavior.returns false))
    4 200 true rfl rfl

/-- Helper: membership of the high-latency message in the alerts array is
exactly the latency breach condition. -/
lemma highLatency_mem_alertsFor (th : AlertThreshold) (a s : Option ℚ) :
    AlertMsg.highLatency ∈ alertsFor th a s ↔ latencyBreach th a = true := by
  cases hl : latencyBreach th a <;> cases hs : successBreach th s <;>
    simp [alertsFor, hl, hs]

/-- Helper: membership of the low-success-rate message in the alerts array
is exactly the success-rate breach condition. -/
lemma lowSuccessRate_mem_alertsFor (th : AlertThreshold) (a s : Option ℚ) :
    AlertMsg.lowSuccessRate ∈ alertsFor th a s ↔ successBreach th s = true := by
  cases hl : latencyBreach th a <;> cases hs : successBreach th s <;>
    simp [alertsFor, hl, hs]

lemma sqlAvg_of_ne_nil (xs : List ℚ) (h : xs ≠ []) :
    sqlAvg xs = some (xs.sum / (xs.length : ℚ)) := by
  simp [sqlAvg, h]

/-- Helper: the success-rate aggregate of a nonempty row selection is a
rational in the unit interval. -/
lemma windowSuccessRate_bounds (db : List StoredTest) (endpoint : String)
    (ws : Int) (h : windowRows db endpoint ws ≠ []) :
    ∃ s : ℚ, windowSuccessRate db endpoint ws = some s ∧ 0 ≤ s ∧ s ≤ 1 := by
  set rows := windowRows db endpoint ws with hrows
  set l : List ℚ := rows.map (fun t => if t.success then (1 : ℚ) else 0) with hl
  have hlne : l ≠ [] := by
    simp [hl]
    exact h
  have hnonneg : (0 : ℚ) ≤ l.sum :=
    List.sum_nonneg (by
      intro x hx
      rw [hl] at hx
      obtain ⟨t, _, rfl⟩ := List.mem_map.mp hx
      by_cases hts : t.success <;> simp [hts])
  have hupper : l.sum ≤ (l.length : ℚ) := by
    have := List.sum_le_card_nsmul l 1 (by
      intro x hx
      rw [hl] at hx
      obtain ⟨t, _, rfl⟩ := List.mem_map.mp hx
      by_cases hts : t.success <;> simp [hts])
    simpa using this
  have hlen : (0 : ℚ) < (l.length : ℚ) := by
    have : 0 < l.length := List.length_pos.mpr hlne
    exact_mod_cast this
  refine ⟨l.sum / (l.length : ℚ), ?_, ?_, ?_⟩
  · rw [windowSuccessRate, ← hrows, ← hl]
    exact sqlAvg_of_ne_nil l hlne
  · exact div_nonneg hnonneg (le_of_lt hlen)
  · rw [div_le_one hlen]
    exact hupper


/-- Claim C3 as stated is false: with zero matching rows, no division
happens and the latency breach stays silent, but the success-rate breach
does fire. Concretely: minSuccessRate = 9/10, notificationUrl set, empty
result table — the NULL success rate coerces to 0 in the JavaScript
comparison 0 < 9/10, the alerts array is nonempty and the notification is
sent, contradicting the claim that no breach fires and nothing is sent. -/
theorem c3_counterexample :
    windowRows [] "https://e" (windowStartOf thC3 resC3) = [] ∧
    checkAlertThresholds (fun _ => some thC3) [] resC3 =
      AlertOutcome.evaluated none none [AlertMsg.lowSuccessRate] true := by
  have hsb : successBreach thC3 none = true := by
    simp only [successBreach, thC3, jsNullLt, Bool.and_eq_true, bne_iff_ne, ne_eq,
      decide_eq_true_eq]
    norm_num
  have hlat : latencyBreach thC3 none = false := rfl
  have havg : windowAvgLatency [] resC3.endpoint (windowStartOf thC3 resC3) = none := rfl
  have hrate : windowSuccessRate [] resC3.endpoint (windowStartOf thC3 resC3) = none := rfl
  have hal : alertsFor thC3 none none = [AlertMsg.lowSuccessRate] := by
    rw [alertsFor, hlat, hsb]
    rfl
  refine ⟨rfl, ?_⟩
  simp only [checkAlertThresholds, havg, hrate, hal]
  decide

/-- Claim C3 amended: on a window with zero matching rows the evaluator
performs no division (both aggregates are SQL NULL) and the max-latency
breach cannot fire, given the nonnegative maxLatency the management schema
admits; but the min-success-rate breach fires precisely when minSuccessRate
is set to a positive value, because the NULL success rate coerces to 0 in
the JavaScript comparison, and the notification is then sent whenever
notificationUrl is set and nonempty. -/
theorem c3_amended_empty_window_fires_success_breach
    (thresholds : String → Option AlertThreshold) (db : List StoredTest)
    (result : LatencyTest) (th : AlertThreshold)
    (hth : thresholds result.endpoint = some th)
    (hwin : windowRows db result.endpoint (windowStartOf th result) = [])
    (hmax : ∀ m, th.maxLatency = some m → 0 ≤ m) :
    checkAlertThresholds thresholds db result =
      AlertOutcome.evaluated none none
        (if successBreach th none then [AlertMsg.lowSuccessRate] else [])
        (successBreach th none && jsTruthyStr th.notificationUrl) ∧
    latencyBreach th none = false ∧
    (successBreach th none = true ↔ ∃ r, th.minSuccessRate = some r ∧ 0 < r) := by
  have hlat : latencyBreach th none = false := by
    cases hM : th.maxLatency with
    | none => simp [latencyBreach, hM]
    | some m =>
        have hm := hmax m hM
        have hnm : ¬((0 : ℚ) > m) := not_lt.mpr hm
        simp [latencyBreach, hM, jsNullGt, hnm]
  refine ⟨?_, hlat, ?_⟩
  · have havg : windowAvgLatency db result.endpoint (windowStartOf th result) = none := by
      simp [windowAvgLatency, hwin, sqlAvg]
    have hrate : windowSuccessRate db result.endpoint (windowStartOf th result) = none := by
      simp [windowSuccessRate, hwin, sqlAvg]
    have halerts : alertsFor th none none =
        (if successBreach th none then [AlertMsg.lowSuccessRate] else []) := by
      simp [alertsFor, hlat]
    simp only [checkAlertThresholds, hth, havg, hrate, halerts]
    cases hsb : successBreach th none <;> simp [hsb]
  · cases hR : th.minSuccessRate with
    | none => simp [successBreach, hR]
    | some r =>
        simp only [successBreach, hR, jsNullLt, Bool.and_eq_true, bne_iff_ne,
          ne_eq, decide_eq_true_eq, Option.some.injEq]
        constructor
        · rintro ⟨_, hpos⟩
          exact ⟨r, rfl, hpos⟩
        · rintro ⟨r2, rfl, hpos⟩
          exact ⟨ne_of_gt hpos, hpos⟩

theorem c3_amended_witness :
    checkAlertThresholds (fun _ => some thPos) [] resSmall =
      AlertOutcome.evaluated none none
        (if successBreach thPos none then [AlertMsg.lowSuccessRate] else [])
        (successBreach thPos none && jsTruthyStr thPos.notificationUrl) ∧
    latencyBreach thPos none = false ∧
    (successBreach thPos none = true ↔ ∃ r, thPos.minSuccessRate = some r ∧ 0 < r) :=
  c3_amended_empty_window_fires_success_breach (fun _ => some thPos) [] resSmall
    thPos rfl (by decide)
    (by intro m hm; rw [show thPos.maxLatency = some 100 from rfl] at hm
        cases hm; norm_num)

/-- Claim C8: on a window with at least one matching row, each boundary is
strict and each iff holds for its field independently of whether the other
field is configured: whenever maxLatency is set to a positive m, the
latency breach fires exactly when the windowed average latency is strictly
greater than m; and whenever minSuccessRate is set to an r in the unit
interval, the success-rate breach fires exactly when the windowed success
rate is strictly less than r (a rate equal to the boundary never fires). -/
theorem c8_breach_boundaries_are_strict
    (thresholds : String → Option AlertThreshold) (db : List StoredTest)
    (result : LatencyTest) (th : AlertThreshold)
    (hth : thresholds result.endpoint = some th)
    (hne : windowRows db result.endpoint (windowStartOf th result) ≠ []) :
    (∀ m : ℚ, th.maxLatency = some m → 0 < m →
      ∃ a : ℚ,
        windowAvgLatency db result.endpoint (windowStartOf th result) = some a ∧
        (AlertMsg.highLatency ∈ firedAlerts (checkAlertThresholds thresholds db result) ↔
          m < a)) ∧
    (∀ r : ℚ, th.minSuccessRate = some r → 0 ≤ r → r ≤ 1 →
      ∃ s : ℚ,
        windowSuccessRate db result.endpoint (windowStartOf th result) = some s ∧
        (AlertMsg.lowSuccessRate ∈ firedAlerts (checkAlertThresholds thresholds db result) ↔
          s < r)) := by
  obtain ⟨s, hs, hs0, _⟩ :=
    windowSuccessRate_bounds db result.endpoint (windowStartOf th result) hne
  have hmapne :
      (windowRows db result.endpoint (windowStartOf th result)).map
        (fun t => (t.latency : ℚ)) ≠ [] := by
    simpa using hne
  have ha : windowAvgLatency db result.endpoint (windowStartOf th result) =
      some (((windowRows db result.endpoint (windowStartOf th result)).map
          (fun t => (t.latency : ℚ))).sum /
        (((windowRows db result.endpoint (windowStartOf th result)).map
          (fun t => (t.latency : ℚ))).length : ℚ)) := by
    rw [windowAvgLatency]
    exact sqlAvg_of_ne_nil _ hmapne
  constructor
  · intro m hm hmpos
    refine ⟨_, ha, ?_⟩
    simp only [checkAlertThresholds, hth, firedAlerts]
    rw [highLatency_mem_alertsFor, ha]
    simp only [latencyBreach, hm, jsNullGt, Bool.and_eq_true, bne_iff_ne, ne_eq,
      decide_eq_true_eq]
    constructor
    · rintro ⟨_, h⟩; exact h
    · intro h; exact ⟨ne_of_gt hmpos, h⟩
  · intro r hr _hr0 _hr1
    refine ⟨s, hs, ?_⟩
    simp only [checkAlertThresholds, hth, firedAlerts]
    rw [lowSuccessRate_mem_alertsFor, hs]
    simp only [successBreach, hr, jsNullLt, Bool.and_eq_true, bne_iff_ne, ne_eq,
      decide_eq_true_eq]
    constructor
    · rintro ⟨_, h⟩; exact h
    · intro h
      have hrpos : (0 : ℚ) < r := lt_of_le_of_lt hs0 h
      exact ⟨ne_of_gt hrpos, h⟩

theorem c8_witness :
    (∃ a : ℚ,
      windowAvgLatency [rowOk] "https://e" (windowStartOf thLatOnly resC8) = some a ∧
      (AlertMsg.highLatency ∈
        firedAlerts (checkAlertThresholds (fun _ => some thLatOnly) [rowOk] resC8) ↔
          100 < a)) ∧
    (∃ s : ℚ,
      windowSuccessRate [rowOk] "https://e" (windowStartOf thRateOnly resC8) = some s ∧
      (AlertMsg.lowSuccessRate ∈
        firedAlerts (checkAlertThresholds (fun _ => some thRateOnly) [rowOk] resC8) ↔
          s < 9 / 10)) :=
  ⟨(c8_breach_boundaries_are_strict (fun _ => some thLatOnly) [rowOk] resC8
      thLatOnly rfl (by decide)).1 100 rfl (by norm_num),
   (c8_breach_boundaries_are_strict (fun _ => some thRateOnly) [rowOk] resC8
      thRateOnly rfl (by decide)).2 (9 / 10) rfl (by norm_num) (by norm_num)⟩

/-- Claim C10: a threshold field stored as the number 0 is treated as unset
by the evaluator, because 0 is falsy in the JavaScript guards: with
maxLatency = 0 the latency breach can never fire, and with
minSuccessRate = 0 the success-rate breach can never fire, regardless of
the stored results and the windowed aggregates. -/
theorem c10_zero_threshold_fields_never_fire
    (thresholds : String → Option AlertThreshold) (db : List StoredTest)
    (result : LatencyTest) (th : AlertThreshold)
    (hth : thresholds result.endpoint = some th) :
    (th.maxLatency = some 0 →
      AlertMsg.highLatency ∉ firedAlerts (checkAlertThresholds thresholds db result)) ∧
    (th.minSuccessRate = some 0 →
      AlertMsg.lowSuccessRate ∉ firedAlerts (checkAlertThresholds thresholds db result)) := by
  constructor
  · intro hm
    simp only [checkAlertThresholds, hth, firedAlerts]
    rw [highLatency_mem_alertsFor]
    simp [latencyBreach, hm]
  · intro hr
    simp only [checkAlertThresholds, hth, firedAlerts]
    rw [lowSuccessRate_mem_alertsFor]
    simp [successBreach, hr]

theorem c10_witness :
    (thZero.maxLatency = some 0 →
      AlertMsg.highLatency ∉
        firedAlerts (checkAlertThresholds (fun _ => some thZero) [rowBad] resC10)) ∧
    (thZero.minSuccessRate = some 0 →
      AlertMsg.lowSuccessRate ∉
        firedAlerts (checkAlertThresholds (fun _ => some thZero) [rowBad] resC10)) :=
  c10_zero_threshold_fields_never_fire (fun _ => some thZero) [rowBad] resC10
    thZero rfl


/-- Helper: deleting the binding of url from the session map leaves no
binding for url. -/
lemma find?_mapDelete_self (m : List (String × Nat)) (url : String) :
    (mapDelete m url).find? (fun p => p.1 == url) = none := by
  rw [List.find?_eq_none]
  intro x hx
  have hmem := List.of_mem_filter hx
  simp only [Bool.not_eq_eq_eq_not, Bool.not_true] at hmem
  simp [hmem]

/-- Helper: deleting the binding of url from the session map does not
disturb the binding of any other key. -/
lemma find?_mapDelete_other (m : List (String × Nat)) (url u : String)
    (h : u ≠ url) :
    (mapDelete m url).find? (fun p => p.1 == u) = m.find? (fun p => p.1 == u) := by
  induction m with
  | nil => rfl
  | cons x xs ih =>
      by_cases hx : x.1 = url
      · have hxu : (x.1 == u) = false := by
          rw [beq_eq_false_iff_ne]
          rw [hx]
          exact fun he => h he.symm
        rw [mapDelete] at ih ⊢
        simp only [List.filter_cons, hx, beq_self_eq_true, Bool.not_true,
          Bool.false_eq_true, if_false]
        rw [ih, List.find?_cons_of_neg]
        simp [hxu]
      · have hxne : (x.1 == url) = false := beq_eq_false_iff_ne.mpr hx
        rw [mapDelete] at ih ⊢
        simp only [List.filter_cons, hxne, Bool.not_false, if_true]
        by_cases hxu : x.1 = u
        · rw [List.find?_cons_of_pos, List.find?_cons_of_pos] <;> simp [hxu]
        · rw [List.find?_cons_of_neg, List.find?_cons_of_neg, ih] <;> simp [hxu]

/-- Claim C2 as stated is false at a concrete input: with a probe that
completes successfully but a Grafana push whose response is not ok, the
push failure is rethrown by pushMetrics, so testEndpoint rejects with it
and the alert evaluation of the freshly persisted result never runs
(alertEval = none), contradicting containment. -/
theorem c2_counterexample :
    testEndpoint (fun _ => none) [] "https://e" {}
      (fun _ => AttemptOutcome.response 3 200 true (ValidatorBehavior.returns true))
      (PushOutcome.respond false) =
      { outcome := Except.error "Failed to push metrics",
        db := [{ timestamp := 3, endpoint := "https://e", latency := 3, status := 200, success := true }],
        alertEval := none } := by
  decide

/-- Claim C2 amended: a telemetry push failure is logged inside pushMetrics
but rethrown, so it is not contained within the cycle: testEndpoint rejects
with the push error and checkAlertThresholds is skipped for the
already-persisted result. It does not cancel the future scheduled cycles of
the endpoint: the interval callback catches the rejection with
.catch(console.error) and never touches the session table or the timer. -/
theorem c2_amended_push_failure_rejects_cycle
    (thresholds : String → Option AlertThreshold) (db : List StoredTest)
    (url : String) (opts : MonitoringOptions) (env : Nat → AttemptOutcome)
    (p : PushOutcome) (e : String) (result : LatencyTest) (k : Nat)
    (hp : pushMetrics p = .error e)
    (hr : performTest url opts env = .ok (result, k)) :
    testEndpoint thresholds db url opts env p =
      { outcome := .error e, db := insertResult db (toStored result),
        alertEval := none } ∧
    ∀ st : SchedulerState,
      (scheduledTick st thresholds db url opts env p).1 = st := by
  refine ⟨?_, fun st => rfl⟩
  simp only [testEndpoint, hr, hp]

theorem c2_amended_witness :
    testEndpoint (fun _ => none) [] "https://w2.example" {}
      (fun _ => AttemptOutcome.response 2 200 true (ValidatorBehavior.returns true))
      PushOutcome.fetchRejects =
      { outcome := Except.error "Error pushing metrics to Grafana",
        db := insertResult [] (toStored { endpoint := "https://w2.example", timestamp := 2, latency := 2, status := 200, success := true }),
        alertEval := none } ∧
    ∀ st : SchedulerState,
      (scheduledTick st (fun _ => none) [] "https://w2.example" {}
        (fun _ => AttemptOutcome.response 2 200 true (ValidatorBehavior.returns true))
        PushOutcome.fetchRejects).1 = st :=
  c2_amended_push_failure_rejects_cycle (fun _ => none) [] "https://w2.example" {}
    (fun _ => AttemptOutcome.response 2 200 true (ValidatorBehavior.returns true))
    PushOutcome.fetchRejects "Error pushing metrics to Grafana"
    { endpoint := "https://w2.example", timestamp := 2, latency := 2, status := 200, success := true }
    1 rfl (by decide)

/-- Claim C5: for a url already present in the session table, a second
startMonitoring call fails with the distinct Already monitoring error, and
since the duplicate check throws before any mutation the returned state is
the input state itself: the first session and its timer are untouched, no
timer is created or cancelled, and no options are replaced or merged. -/
theorem c5_duplicate_start_fails_atomically (dflt : Nat) (s : SchedulerState)
    (url : String) (options : StartOptions) (t : Nat)
    (ht : lookupTimer s url = some t) :
    startMonitoring dflt s url options =
      (.error ("Already monitoring " ++ url), s) := by
  simp [startMonitoring, ht]

theorem c5_witness :
    startMonitoring 30000
      { activeTests := [("https://a", 0)], cancelledTimers := [], nextTimerId := 1 }
      "https://a" (StartOptions.num 5000) =
      (.error ("Already monitoring " ++ "https://a"),
       { activeTests := [("https://a", 0)], cancelledTimers := [], nextTimerId := 1 }) :=
  c5_duplicate_start_fails_atomically 30000
    { activeTests := [("https://a", 0)], cancelledTimers := [], nextTimerId := 1 }
    "https://a" (StartOptions.num 5000) 0 (by decide)

/-- Claim C6 as stated is false at a concrete input: on a fresh state, a
successful startMonitoring emits its steps in the order armTimer,
registerSession, runInitialCycle, so the initial probe cycle is NOT awaited
before the repeating timer is armed: the timer exists first and the probe
promise is merely returned. The head of the event list is the timer
arming, not the initial cycle. -/
theorem c6_counterexample :
    startMonitoring 30000
      { activeTests := [], cancelledTimers := [], nextTimerId := 0 }
      "https://a" (StartOptions.opts {}) =
      (.ok ([StartEvent.armTimer 0 30000,
             StartEvent.registerSession "https://a" 0,
             StartEvent.runInitialCycle "https://a"], 30000),
       { activeTests := [("https://a", 0)], cancelledTimers := [], nextTimerId := 1 }) ∧
    [StartEvent.armTimer 0 30000, StartEvent.registerSession "https://a" 0,
     StartEvent.runInitialCycle "https://a"].head? ≠
      some (StartEvent.runInitialCycle "https://a") := by
  exact ⟨by decide, by decide⟩

/-- Claim C6 amended: a successful startMonitoring call arms the repeating
timer at options.interval ?? default interval first, then registers the
session (url to cancellation handle) — both before the call returns — and
only then starts the one immediate probe cycle, whose promise is returned
to the caller rather than awaited before the timer is armed. After the
call the session table maps url to the new timer. -/
theorem c6_amended_timer_and_session_before_initial_probe (dflt : Nat)
    (s : SchedulerState) (url : String) (options : StartOptions)
    (hnone : lookupTimer s url = none) :
    startMonitoring dflt s url options =
      (.ok ([StartEvent.armTimer s.nextTimerId
               ((normalizeOptions options).interval.getD dflt),
             StartEvent.registerSession url s.nextTimerId,
             StartEvent.runInitialCycle url],
            (normalizeOptions options).interval.getD dflt),
       { activeTests := mapSet s.activeTests url s.nextTimerId,
         cancelledTimers := s.cancelledTimers,
         nextTimerId := s.nextTimerId + 1 }) ∧
    lookupTimer
      { activeTests := mapSet s.activeTests url s.nextTimerId,
        cancelledTimers := s.cancelledTimers,
        nextTimerId := s.nextTimerId + 1 } url = some s.nextTimerId := by
  have hfind : s.activeTests.find? (fun p => p.1 == url) = none := by
    cases hf : s.activeTests.find? (fun p => p.1 == url) with
    | none => rfl
    | some x =>
        rw [lookupTimer, hf] at hnone
        simp at hnone
  have hany : s.activeTests.any (fun p => p.1 == url) = false := by
    rw [Bool.eq_false_iff]
    intro hc
    obtain ⟨x, hx, hpx⟩ := List.any_eq_true.mp hc
    exact (List.find?_eq_none.mp hfind x hx) hpx
  constructor
  · simp [startMonitoring, hnone]
  · rw [lookupTimer]
    simp only [mapSet, hany, Bool.false_eq_true, if_false]
    rw [List.find?_append, hfind]
    simp

theorem c6_amended_witness :
    startMonitoring 30000
      { activeTests := [], cancelledTimers := [], nextTimerId := 0 }
      "https://b" (StartOptions.num 5000) =
      (.ok ([StartEvent.armTimer 0 ((normalizeOptions (StartOptions.num 5000)).interval.getD 30000),
             StartEvent.registerSession "https://b" 0,
             StartEvent.runInitialCycle "https://b"],
            (normalizeOptions (StartOptions.num 5000)).interval.getD 30000),
       { activeTests := mapSet [] "https://b" 0, cancelledTimers := [],
         nextTimerId := 0 + 1 }) ∧
    lookupTimer
      { activeTests := mapSet [] "https://b" 0, cancelledTimers := [],
        nextTimerId := 0 + 1 } "https://b" = some 0 :=
  c6_amended_timer_and_session_before_initial_probe 30000
    { activeTests := [], cancelledTimers := [], nextTimerId := 0 }
    "https://b" (StartOptions.num 5000) rfl

/-- Claim C9: stopMonitoring is total (never an error) and idempotent on an
absent url: it returns the state unchanged, also on a second consecutive
call; and on a url with an active session it cancels exactly that timer
and removes exactly that session entry, leaving every other binding of the
session table intact. -/
theorem c9_stop_idempotent_and_removes_exactly_one (s : SchedulerState)
    (url : String) :
    (lookupTimer s url = none →
      stopMonitoring s url = s ∧ stopMonitoring (stopMonitoring s url) url = s) ∧
    (∀ t, lookupTimer s url = some t →
      stopMonitoring s url =
        { activeTests := mapDelete s.activeTests url,
          cancelledTimers := t :: s.cancelledTimers,
          nextTimerId := s.nextTimerId } ∧
      lookupTimer (stopMonitoring s url) url = none ∧
      ∀ u, u ≠ url →
        lookupTimer (stopMonitoring s url) u = lookupTimer s u) := by
  constructor
  · intro hnone
    have h1 : stopMonitoring s url = s := by
      rw [stopMonitoring, hnone]
    exact ⟨h1, by rw [h1, h1]⟩
  · intro t ht
    have h1 : stopMonitoring s url =
        { activeTests := mapDelete s.activeTests url,
          cancelledTimers := t :: s.cancelledTimers,
          nextTimerId := s.nextTimerId } := by
      rw [stopMonitoring, ht]
    refine ⟨h1, ?_, ?_⟩
    · rw [h1, lookupTimer]
      simp only [find?_mapDelete_self]
      rfl
    · intro u hu
      rw [h1, lookupTimer, lookupTimer]
      simp only [find?_mapDelete_other s.activeTests url u hu]

theorem c9_witness :
    (stopMonitoring { activeTests := [], cancelledTimers := [], nextTimerId := 0 } "https://a" =
       { activeTests := [], cancelledTimers := [], nextTimerId := 0 } ∧
     stopMonitoring
       (stopMonitoring { activeTests := [], cancelledTimers := [], nextTimerId := 0 } "https://a")
       "https://a" =
       { activeTests := [], cancelledTimers := [], nextTimerId := 0 }) ∧
    (stopMonitoring
       { activeTests := [("https://a", 3), ("https://b", 4)], cancelledTimers := [], nextTimerId := 5 }
       "https://a" =
       { activeTests := mapDelete [("https://a", 3), ("https://b", 4)] "https://a",
         cancelledTimers := 3 :: [], nextTimerId := 5 } ∧
     lookupTimer
       (stopMonitoring
         { activeTests := [("https://a", 3), ("https://b", 4)], cancelledTimers := [], nextTimerId := 5 }
         "https://a") "https://a" = none ∧
     ∀ u, u ≠ "https://a" →
       lookupTimer
         (stopMonitoring
           { activeTests := [("https://a", 3), ("https://b", 4)], cancelledTimers := [], nextTimerId := 5 }
           "https://a") u =
       lookupTimer
         { activeTests := [("https://a", 3), ("https://b", 4)], cancelledTimers := [], nextTimerId := 5 } u) :=
  ⟨(c9_stop_idempotent_and_removes_exactly_one
      { activeTests := [], cancelledTimers := [], nextTimerId := 0 } "https://a").1 (by decide),
   (c9_stop_idempotent_and_removes_exactly_one
      { activeTests := [("https://a", 3), ("https://b", 4)], cancelledTimers := [], nextTimerId := 5 }
      "https://a").2 3 (by decide)⟩

end TapTap
